import Mathlib

/-!
# Verification of the ingestion-gateway Lambda (`src/lambda/create-presigned-urls.py`)

Shallow embedding of the presigned-upload-and-workflow-trigger gateway:
the module-level configuration constants, `create_presigned_post`,
`start_generic_glue_workflow`, and `lambda_handler`.

Modelling conventions:

* The external S3 credential-issuing service is an oracle
  `s3 : String → String → Nat → S3Reply` giving, for each
  (bucket, key, expiration) triple, either the presigned-post response or a
  `botocore.exceptions.ClientError`.
* The inbound event is modelled by its `queryStringParameters` field, a JSON
  object represented as an association list with distinct keys
  (`event.get('queryStringParameters', {})` yields the empty object when the
  field is absent).
* Python dictionaries returned to the caller are modelled structurally:
  `Body.message m` stands for the serialized `{'message': m}` and
  `Body.ofDict d` for `json.dumps(presigned_response)`.
* Besides the response, the embedding of `lambda_handler` returns an
  `Effects` record tracing the observable calls to external services:
  the `generate_presigned_post` calls made, the calls into
  `start_generic_glue_workflow`, and the number of Glue
  `start_workflow_run` requests actually issued.
-/

/-- A Python exception value, as far as the embedded code distinguishes them:
`ClientError` (caught by the inner handlers) versus any other exception
(caught only by `lambda_handler`'s outer `except Exception`). -/
inductive PyExc where
  | clientError (msg : String)
  | nameError (msg : String)
  deriving DecidableEq, Repr

/-- Reply of the external S3 service to one `generate_presigned_post` call:
the presigned-post response (a dict with exactly the keys `url` and `fields`)
or a raised `ClientError`. -/
inductive S3Reply where
  | presigned (url : String) (fields : List (String × String))
  | clientError (msg : String)
  deriving DecidableEq, Repr

/-- The dictionary returned by `create_presigned_post`: either the service
response passed through unchanged, or the literal `{"error": str(e)}` built
in the `except ClientError` clause. -/
inductive PresignedDict where
  | response (url : String) (fields : List (String × String))
  | errorDict (msg : String)
  deriving DecidableEq, Repr

/-- The Python membership test `"error" in presigned_response`: the success
response of `generate_presigned_post` carries only the keys `url` and
`fields`, so the test holds exactly on the `{"error": ...}` dict. -/
def containsKeyError : PresignedDict → Bool
  | .errorDict _ => true
  | .response _ _ => false

/-- The JSON body of a gateway response: `Body.message m` is
`json.dumps({'message': m})`, `Body.ofDict d` is
`json.dumps(presigned_response)`. -/
inductive Body where
  | message (msg : String)
  | ofDict (d : PresignedDict)
  deriving DecidableEq, Repr

/-- Whether the serialized body carries the credential fields (`url` and
`fields` of a presigned response). An error message or a passed-through
`{"error": ...}` dict carries none. -/
def Body.hasCredentialFields : Body → Bool
  | .ofDict (.response _ _) => true
  | _ => false

/-- The dictionary returned by `lambda_handler`. -/
structure LambdaResponse where
  statusCode : Nat
  headers : List (String × String)
  body : Body
  deriving DecidableEq, Repr

/-- Observable external calls made while handling one request. -/
structure Effects where
  /-- Each `s3_client.generate_presigned_post` call: (bucket, key, expiration). -/
  presignCalls : List (String × String × Nat)
  /-- Each call into `start_generic_glue_workflow`: (workflow name, client id). -/
  glueAttempts : List (String × String)
  /-- Number of Glue `start_workflow_run` requests actually issued. -/
  glueStartRuns : Nat
  deriving DecidableEq, Repr

/-- No external call at all (the early-return paths). -/
def Effects.empty : Effects := ⟨[], [], 0⟩

/-- `os.environ.get("S3_TARGET_BUCKET", "your-etl-landing-zone")`; the
deployment environment is not part of the embedded code, so the default
stands for the configured value. -/
def S3_BUCKET_PLACEHOLDER : String := "your-etl-landing-zone"

/-- `os.environ.get("GLUE_WORKFLOW_NAME", "data_ingestion_workflow")`. -/
def GLUE_WORKFLOW_PLACEHOLDER : String := "data_ingestion_workflow"

/-- `os.environ.get("AWS_REGION", "eu-south-1")`. -/
def AWS_REGION : String := "eu-south-1"

/-- Python's `dict.get(k)`: `none` when the key is absent. The association
list carries distinct keys, so taking the first match is the dict lookup. -/
def dictGet (ps : List (String × String)) (k : String) : Option String :=
  (ps.find? (fun p => p.fst == k)).map (fun p => p.snd)

/-- Python's `dict.get(k, d)`. -/
def dictGetD (ps : List (String × String)) (k d : String) : String :=
  (dictGet ps k).getD d

/-- Python truthiness of the `file_name` variable (`not file_name` is true
exactly when the parameter is absent (`None`) or the empty string). -/
def pyTruthy : Option String → Bool
  | none => false
  | some s => s ≠ ""

/-- Python's f-string interpolation of a possibly-`None` variable
(`f'{None}'` renders as `"None"`). -/
def pyStr : Option String → String
  | none => "None"
  | some s => s

/-- Embeds `create_presigned_post(bucket_name, object_key, expiration=300)`:
forwards the call to the S3 service; on success returns the response
unchanged, on `ClientError` returns `{"error": str(e)}`. -/
def create_presigned_post (s3 : String → String → Nat → S3Reply)
    (bucket_name object_key : String) (expiration : Nat := 300) : PresignedDict :=
  match s3 bucket_name object_key expiration with
  | .presigned url fields => .response url fields
  | .clientError e => .errorDict e

/-- Embeds `start_generic_glue_workflow(workflow_name, client_id)`.

Its first statement, `glue_client = botocto.client('glue', region_name=AWS_REGION)`,
evaluates the name `botocto`, which the module never defines or imports (the
module imports `json`, `os`, `boto3`, `ClientError` and `typing` only), so it
raises `NameError` before any Glue API request is constructed; the function's
`except ClientError` clause does not match `NameError`, so the exception
propagates to the caller. The second component counts the Glue
`start_workflow_run` requests issued by the call: always zero. -/
def start_generic_glue_workflow (_workflow_name _client_id : String) :
    Except PyExc Bool × Nat :=
  (Except.error (PyExc.nameError "name 'botocto' is not defined"), 0)

/-- The headers of the step-4 success response of `lambda_handler`. -/
def successHeaders : List (String × String) :=
  [("Content-Type", "application/json"), ("Access-Control-Allow-Origin", "*")]

/-- The body of `lambda_handler` after parameter extraction (lines 59–99):
key construction, validation, presigned-URL generation, conditional workflow
trigger, and the outer `except Exception` that turns any uncaught exception
(here, the `NameError` escaping `start_generic_glue_workflow`) into the
500 `Internal Server Error` response. -/
def handlerBody (s3 : String → String → Nat → S3Reply) (client_id_uuid : String)
    (file_name : Option String) (file_source last_file_flag : String) :
    LambdaResponse × Effects :=
  let key := client_id_uuid ++ "/raw_data/" ++ file_source ++ "/" ++ pyStr file_name
  if pyTruthy file_name = false then
    ({ statusCode := 400, headers := [], body := Body.message "Missing file_name parameter." },
     Effects.empty)
  else
    let presigned_response := create_presigned_post s3 S3_BUCKET_PLACEHOLDER key
    if containsKeyError presigned_response then
      ({ statusCode := 500, headers := [], body := Body.message "Failed to generate upload URL." },
       { presignCalls := [(S3_BUCKET_PLACEHOLDER, key, 300)], glueAttempts := [], glueStartRuns := 0 })
    else if last_file_flag = "True" then
      match start_generic_glue_workflow GLUE_WORKFLOW_PLACEHOLDER client_id_uuid with
      | (Except.ok _, n) =>
        ({ statusCode := 200, headers := successHeaders, body := Body.ofDict presigned_response },
         { presignCalls := [(S3_BUCKET_PLACEHOLDER, key, 300)],
           glueAttempts := [(GLUE_WORKFLOW_PLACEHOLDER, client_id_uuid)], glueStartRuns := n })
      | (Except.error _, n) =>
        ({ statusCode := 500, headers := [], body := Body.message "Internal Server Error - Check CloudWatch" },
         { presignCalls := [(S3_BUCKET_PLACEHOLDER, key, 300)],
           glueAttempts := [(GLUE_WORKFLOW_PLACEHOLDER, client_id_uuid)], glueStartRuns := n })
    else
      ({ statusCode := 200, headers := successHeaders, body := Body.ofDict presigned_response },
       { presignCalls := [(S3_BUCKET_PLACEHOLDER, key, 300)], glueAttempts := [], glueStartRuns := 0 })

/-- The inbound API-Gateway event, restricted to the field the handler reads. -/
structure LambdaEvent where
  queryStringParameters : List (String × String)

/-- Embeds `lambda_handler(event, context)`: extracts the four routing
parameters with their defaults (lines 59–65) and runs the handler body. -/
def lambda_handler (s3 : String → String → Nat → S3Reply) (event : LambdaEvent) :
    LambdaResponse × Effects :=
  let query_params := event.queryStringParameters
  handlerBody s3
    (dictGetD query_params "s3" "CLIENT_ID_MISSING")
    (dictGet query_params "file_name")
    (dictGetD query_params "gestionale" "DEFAULT_SOURCE")
    (dictGetD query_params "last_file" "False")

/-- The object key the handler constructs at line 68,
`f'{client_id_uuid}/raw_data/{file_source}/{file_name}'`, as a function of
the event. -/
def requestKey (event : LambdaEvent) : String :=
  dictGetD event.queryStringParameters "s3" "CLIENT_ID_MISSING" ++ "/raw_data/" ++
    dictGetD event.queryStringParameters "gestionale" "DEFAULT_SOURCE" ++ "/" ++
    pyStr (dictGet event.queryStringParameters "file_name")

/-- Handling a batch of requests. Invocations share no state (the module has
no completion-state store and each invocation is independent), so a set of
parallel requests and a sequence of requests alike are handled elementwise. -/
def handleAll (s3 : String → String → Nat → S3Reply) (events : List LambdaEvent) :
    List (LambdaResponse × Effects) :=
  events.map (lambda_handler s3)

/-- Total number of Glue `start_workflow_run` requests issued over a batch. -/
def totalGlueStartRuns (rs : List (LambdaResponse × Effects)) : Nat :=
  (rs.map (fun r => r.snd.glueStartRuns)).sum

/-- Total number of calls into `start_generic_glue_workflow` over a batch. -/
def totalGlueAttempts (rs : List (LambdaResponse × Effects)) : Nat :=
  (rs.map (fun r => r.snd.glueAttempts.length)).sum

/-- An S3 oracle that always issues the credential. -/
def grantingS3 : String → String → Nat → S3Reply :=
  fun _bucket key _exp => S3Reply.presigned ("https://s3.example/" ++ key) [("key", key)]

/-- An S3 oracle that always rejects with a `ClientError`. -/
def rejectingS3 : String → String → Nat → S3Reply :=
  fun _bucket _key _exp => S3Reply.clientError "AccessDenied"

/-- A valid request whose `last_file` flag is set. -/
def evLast : LambdaEvent :=
  ⟨[("s3", "T1"), ("file_name", "sales.csv"), ("gestionale", "ERP"), ("last_file", "True")]⟩

/-- A request whose `file_name` walks up the key space with a `..` segment. -/
def evDotDot : LambdaEvent := ⟨[("file_name", "../secret.csv")]⟩

/-- A valid request carrying the non-canonical flag spelling `"true"`. -/
def evLower : LambdaEvent := ⟨[("file_name", "a.csv"), ("last_file", "true")]⟩

/-- The request of `evLower` without any `last_file` parameter. -/
def evNoFlag : LambdaEvent := ⟨[("file_name", "a.csv")]⟩

/-- Branch-level characterization of `lambda_handler`: the four return sites
of the source (400 validation, 500 presign failure, 500 via the outer
`except Exception` after the dispatcher's `NameError`, 200 success). -/
theorem lambda_handler_char (s3 : String → String → Nat → S3Reply) (ev : LambdaEvent) :
    lambda_handler s3 ev =
      if pyTruthy (dictGet ev.queryStringParameters "file_name") = false then
        ({ statusCode := 400, headers := [], body := Body.message "Missing file_name parameter." },
         Effects.empty)
      else if containsKeyError (create_presigned_post s3 S3_BUCKET_PLACEHOLDER (requestKey ev)) then
        ({ statusCode := 500, headers := [], body := Body.message "Failed to generate upload URL." },
         { presignCalls := [(S3_BUCKET_PLACEHOLDER, requestKey ev, 300)],
           glueAttempts := [], glueStartRuns := 0 })
      else if dictGetD ev.queryStringParameters "last_file" "False" = "True" then
        ({ statusCode := 500, headers := [], body := Body.message "Internal Server Error - Check CloudWatch" },
         { presignCalls := [(S3_BUCKET_PLACEHOLDER, requestKey ev, 300)],
           glueAttempts := [(GLUE_WORKFLOW_PLACEHOLDER,
             dictGetD ev.queryStringParameters "s3" "CLIENT_ID_MISSING")],
           glueStartRuns := 0 })
      else
        ({ statusCode := 200, headers := successHeaders,
           body := Body.ofDict (create_presigned_post s3 S3_BUCKET_PLACEHOLDER (requestKey ev)) },
         { presignCalls := [(S3_BUCKET_PLACEHOLDER, requestKey ev, 300)],
           glueAttempts := [], glueStartRuns := 0 }) := by
  rfl

/-- A presigned dict that does not hold the key `"error"` is a passed-through
service response, so its serialization carries the credential fields. -/
theorem hasCredentialFields_of_no_error (d : PresignedDict)
    (h : containsKeyError d = false) : (Body.ofDict d).hasCredentialFields = true := by
  cases d with
  | response url fields => rfl
  | errorDict m => simp [containsKeyError] at h

/-- The constructed object key is never the empty string: it always carries
the literal `/raw_data/` separator. -/
theorem requestKey_ne_empty (ev : LambdaEvent) : requestKey ev ≠ "" := by
  unfold requestKey
  intro h
  have hlen := congrArg String.length h
  rw [String.length_append, String.length_append, String.length_append,
    String.length_append] at hlen
  have h1 : ("/raw_data/" : String).length = 10 := rfl
  have h2 : ("/" : String).length = 1 := rfl
  have h3 : ("" : String).length = 0 := rfl
  rw [h1, h2, h3] at hlen
  omega

/-- The handler never issues a Glue `start_workflow_run` request: the
dispatcher fails on the undefined name `botocto` before reaching the Glue
client. -/
theorem glueStartRuns_eq_zero (s3 : String → String → Nat → S3Reply) (ev : LambdaEvent) :
    (lambda_handler s3 ev).snd.glueStartRuns = 0 := by
  rw [lambda_handler_char]
  split_ifs <;> rfl

/-- The flag value is read only by the `last_file_flag == 'True'` comparison:
two non-`"True"` values give identical handler results. -/
theorem handlerBody_flag_irrel (s3 : String → String → Nat → S3Reply)
    (c : String) (fn : Option String) (src f1 f2 : String)
    (h1 : f1 ≠ "True") (h2 : f2 ≠ "True") :
    handlerBody s3 c fn src f1 = handlerBody s3 c fn src f2 := by
  unfold handlerBody
  simp [h1, h2]

/-- Over any batch of requests, the handler issues zero Glue
`start_workflow_run` requests in total. -/
theorem totalGlueStartRuns_handleAll (s3 : String → String → Nat → S3Reply)
    (evs : List LambdaEvent) : totalGlueStartRuns (handleAll s3 evs) = 0 := by
  unfold totalGlueStartRuns handleAll
  induction evs with
  | nil => rfl
  | cons ev rest ih =>
    simp only [List.map_cons, List.map_map, List.sum_cons]
    rw [glueStartRuns_eq_zero s3 ev]
    simpa using ih

/-- C3: for every valid request with tenant id `T` (`s3` parameter), source
system `S` (`gestionale` parameter) and non-empty file name `F`, the single
authorizer call the gateway makes is scoped to the object key
`T ++ "/raw_data/" ++ S ++ "/" ++ F`; the key is a function of the triple
alone, hence identical for every request carrying the same triple. -/
theorem C3_object_key (s3 : String → String → Nat → S3Reply) (ev : LambdaEvent)
    (T S F : String)
    (hT : dictGetD ev.queryStringParameters "s3" "CLIENT_ID_MISSING" = T)
    (hF : dictGet ev.queryStringParameters "file_name" = some F)
    (hS : dictGetD ev.queryStringParameters "gestionale" "DEFAULT_SOURCE" = S)
    (hFne : F ≠ "") :
    (lambda_handler s3 ev).snd.presignCalls
      = [(S3_BUCKET_PLACEHOLDER, T ++ "/raw_data/" ++ S ++ "/" ++ F, 300)] := by
  have hkey : requestKey ev = T ++ "/raw_data/" ++ S ++ "/" ++ F := by
    unfold requestKey
    rw [hT, hF, hS]
    rfl
  rw [lambda_handler_char, hkey]
  have hfile : pyTruthy (dictGet ev.queryStringParameters "file_name") = false → False := by
    rw [hF]
    simp [pyTruthy, hFne]
  split_ifs with h1 h2 h3 <;> first | exact absurd h1 hfile | rfl

/-- C3 witness: the scenario request `T1`/`ERP`/`sales.csv` is authorized for
exactly the key `T1/raw_data/ERP/sales.csv`. -/
theorem C3_object_key_witness :
    (lambda_handler grantingS3
        ⟨[("s3", "T1"), ("file_name", "sales.csv"), ("gestionale", "ERP")]⟩).snd.presignCalls
      = [(S3_BUCKET_PLACEHOLDER, "T1" ++ "/raw_data/" ++ "ERP" ++ "/" ++ "sales.csv", 300)] :=
  C3_object_key grantingS3 _ "T1" "ERP" "sales.csv" rfl rfl rfl (by decide)

/-- C5: a request whose `file_name` is absent or empty is rejected with
status 400 and the message `Missing file_name parameter.`, before any
authorizer call and before any workflow dispatch. -/
theorem C5_missing_file_name (s3 : String → String → Nat → S3Reply) (ev : LambdaEvent)
    (h : pyTruthy (dictGet ev.queryStringParameters "file_name") = false) :
    (lambda_handler s3 ev).fst.statusCode = 400 ∧
    (lambda_handler s3 ev).fst.body = Body.message ("Missing file_name" ++ " parameter.") ∧
    (lambda_handler s3 ev).snd.presignCalls = [] ∧
    (lambda_handler s3 ev).snd.glueAttempts = [] ∧
    (lambda_handler s3 ev).snd.glueStartRuns = 0 := by
  rw [lambda_handler_char]
  rw [if_pos h]
  exact ⟨rfl, rfl, rfl, rfl, rfl⟩

/-- C5 witness: a request with no parameters at all, and one with
`file_name=""`, are both rejected with 400 and no external call. -/
theorem C5_missing_file_name_witness :
    (lambda_handler grantingS3 ⟨[]⟩).fst.statusCode = 400 ∧
    (lambda_handler grantingS3 ⟨[("file_name", "")]⟩).fst.body
      = Body.message ("Missing file_name" ++ " parameter.") :=
  ⟨(C5_missing_file_name grantingS3 ⟨[]⟩ rfl).1,
   (C5_missing_file_name grantingS3 ⟨[("file_name", "")]⟩ (by decide)).2.1⟩

/-- C6: when the credential issuer rejects the request with a `ClientError`,
the handler answers 500 with the fixed failure message; the body carries no
credential field at all. -/
theorem C6_auth_failure (s3 : String → String → Nat → S3Reply) (ev : LambdaEvent)
    (msg : String)
    (hfile : pyTruthy (dictGet ev.queryStringParameters "file_name") = true)
    (hrej : s3 S3_BUCKET_PLACEHOLDER (requestKey ev) 300 = S3Reply.clientError msg) :
    (lambda_handler s3 ev).fst.statusCode = 500 ∧
    (lambda_handler s3 ev).fst.body = Body.message "Failed to generate upload URL." ∧
    (lambda_handler s3 ev).fst.body.hasCredentialFields = false := by
  have herr : containsKeyError (create_presigned_post s3 S3_BUCKET_PLACEHOLDER (requestKey ev))
      = true := by
    unfold create_presigned_post
    rw [hrej]
    rfl
  rw [lambda_handler_char]
  rw [if_neg (by simp [hfile]), if_pos herr]
  exact ⟨rfl, rfl, rfl⟩

/-- C6 witness: under the always-rejecting issuer, the scenario request gets
500 and a bare error message. -/
theorem C6_auth_failure_witness :
    (lambda_handler rejectingS3 evNoFlag).fst.statusCode = 500 ∧
    (lambda_handler rejectingS3 evNoFlag).fst.body.hasCredentialFields = false :=
  ⟨(C6_auth_failure rejectingS3 evNoFlag "AccessDenied" (by decide) rfl).1,
   (C6_auth_failure rejectingS3 evNoFlag "AccessDenied" (by decide) rfl).2.2⟩

/-- C7: absent optional parameters take the coded defaults — `gestionale`
(source system) falls back to `DEFAULT_SOURCE`, `s3` (tenant id) to the
non-empty sentinel `CLIENT_ID_MISSING`, and `last_file` to `"False"`, so a
request without the flag never reaches the workflow dispatcher; when the
file name is present, the defaults appear verbatim in the authorized key. -/
theorem C7_defaults (s3 : String → String → Nat → S3Reply) (ev : LambdaEvent)
    (hs : dictGet ev.queryStringParameters "s3" = none)
    (hg : dictGet ev.queryStringParameters "gestionale" = none)
    (hl : dictGet ev.queryStringParameters "last_file" = none) :
    dictGetD ev.queryStringParameters "s3" "CLIENT_ID_MISSING" = "CLIENT_ID_MISSING" ∧
    dictGetD ev.queryStringParameters "gestionale" "DEFAULT_SOURCE" = "DEFAULT_SOURCE" ∧
    dictGetD ev.queryStringParameters "last_file" "False" = "False" ∧
    ("CLIENT_ID_MISSING" : String) ≠ "" ∧
    (lambda_handler s3 ev).snd.glueAttempts = [] ∧
    (lambda_handler s3 ev).snd.glueStartRuns = 0 ∧
    (pyTruthy (dictGet ev.queryStringParameters "file_name") = true →
      (lambda_handler s3 ev).snd.presignCalls.map (fun c => c.snd.fst)
        = ["CLIENT_ID_MISSING" ++ "/raw_data/" ++ "DEFAULT_SOURCE" ++ "/"
            ++ pyStr (dictGet ev.queryStringParameters "file_name")]) := by
  have hds : dictGetD ev.queryStringParameters "s3" "CLIENT_ID_MISSING" = "CLIENT_ID_MISSING" := by
    unfold dictGetD; rw [hs]; rfl
  have hdg : dictGetD ev.queryStringParameters "gestionale" "DEFAULT_SOURCE" = "DEFAULT_SOURCE" := by
    unfold dictGetD; rw [hg]; rfl
  have hdl : dictGetD ev.queryStringParameters "last_file" "False" = "False" := by
    unfold dictGetD; rw [hl]; rfl
  have hkey : requestKey ev = "CLIENT_ID_MISSING" ++ "/raw_data/" ++ "DEFAULT_SOURCE" ++ "/"
      ++ pyStr (dictGet ev.queryStringParameters "file_name") := by
    unfold requestKey
    rw [hds, hdg]
  refine ⟨hds, hdg, hdl, by decide, ?_, glueStartRuns_eq_zero s3 ev, ?_⟩
  · rw [lambda_handler_char, hdl]
    split_ifs with h1 h2 h3
    · rfl
    · rfl
    · exact absurd h3 (by decide)
    · rfl
  · intro hfile
    rw [lambda_handler_char, hdl, hkey]
    rw [if_neg (by simp [hfile])]
    split_ifs with h2 h3
    · rfl
    · exact absurd h3 (by decide)
    · rfl

/-- C7 witness: a request carrying only `file_name=a.csv` is authorized for
`CLIENT_ID_MISSING/raw_data/DEFAULT_SOURCE/a.csv` and dispatches nothing. -/
theorem C7_defaults_witness :
    (lambda_handler grantingS3 evNoFlag).snd.glueAttempts = [] ∧
    (lambda_handler grantingS3 evNoFlag).snd.presignCalls.map (fun c => c.snd.fst)
      = ["CLIENT_ID_MISSING" ++ "/raw_data/" ++ "DEFAULT_SOURCE" ++ "/"
          ++ pyStr (dictGet evNoFlag.queryStringParameters "file_name")] :=
  ⟨(C7_defaults grantingS3 evNoFlag rfl rfl rfl).2.2.2.2.1,
   (C7_defaults grantingS3 evNoFlag rfl rfl rfl).2.2.2.2.2.2 (by decide)⟩

/-- C1 counterexample: for the scenario batch (tenant `T1`, flag set, issuer
granting), the first flagged request issues zero workflow-start requests —
not exactly one — and a repeated flagged request for the same batch key is
not treated as already completed: it enters the dispatcher again (two
attempts over the two requests). -/
theorem C1_counterexample :
    totalGlueStartRuns (handleAll grantingS3 [evLast]) = 0 ∧
    totalGlueStartRuns (handleAll grantingS3 [evLast]) ≠ 1 ∧
    totalGlueAttempts (handleAll grantingS3 [evLast, evLast]) = 2 ∧
    (lambda_handler grantingS3 evLast).fst.statusCode = 500 := by
  exact ⟨rfl, by decide, rfl, rfl⟩

/-- C1 amended: the gateway keeps no completion state — every request with a
non-empty `file_name`, a granted credential and `last_file = "True"` enters
the workflow-trigger branch (one dispatcher call each, never an
already-completed short-circuit) — and the dispatcher aborts on the
undefined name `botocto` before reaching the Glue service, so zero
workflow-start requests are issued and each such request answers 500. -/
theorem C1_amended_every_flag_attempts (s3 : String → String → Nat → S3Reply)
    (ev : LambdaEvent)
    (hfile : pyTruthy (dictGet ev.queryStringParameters "file_name") = true)
    (hok : containsKeyError (create_presigned_post s3 S3_BUCKET_PLACEHOLDER (requestKey ev))
      = false)
    (hflag : dictGetD ev.queryStringParameters "last_file" "False" = "True") :
    (lambda_handler s3 ev).snd.glueAttempts
      = [(GLUE_WORKFLOW_PLACEHOLDER, dictGetD ev.queryStringParameters "s3" "CLIENT_ID_MISSING")] ∧
    (lambda_handler s3 ev).snd.glueStartRuns = 0 ∧
    (lambda_handler s3 ev).fst.statusCode = 500 := by
  rw [lambda_handler_char]
  rw [if_neg (by simp [hfile]), if_neg (by simp [hok]), if_pos hflag]
  exact ⟨rfl, rfl, rfl⟩

/-- C1 amended, witness: the concrete flagged request `evLast` produces one
dispatcher call, zero workflow starts, and a 500 answer. -/
theorem C1_amended_witness :
    (lambda_handler grantingS3 evLast).snd.glueAttempts
      = [(GLUE_WORKFLOW_PLACEHOLDER, "T1")] ∧
    (lambda_handler grantingS3 evLast).snd.glueStartRuns = 0 :=
  ⟨(C1_amended_every_flag_attempts grantingS3 evLast (by decide) rfl rfl).1,
   (C1_amended_every_flag_attempts grantingS3 evLast (by decide) rfl rfl).2.1⟩

/-- C2 counterexample: two parallel last-signals for the same batch identity
(invocations share no state, so their parallel execution is their
independent execution) both answer 500 — not 200 — and zero workflow-start
requests are dispatched in total — not exactly one. -/
theorem C2_counterexample :
    (handleAll grantingS3 [evLast, evLast]).map (fun r => r.fst.statusCode) = [500, 500] ∧
    totalGlueStartRuns (handleAll grantingS3 [evLast, evLast]) = 0 := by
  exact ⟨rfl, rfl⟩

/-- C2 amended: there is no completion-state store and no set-if-absent
operation; N parallel last-signals are N independent executions, none of
which receives a 200 (each fails in the dispatcher via the `botocto`
`NameError`, when not earlier), and zero workflow-start requests are issued
in total. -/
theorem C2_amended_no_dispatch (s3 : String → String → Nat → S3Reply)
    (evs : List LambdaEvent)
    (h : ∀ ev ∈ evs, dictGetD ev.queryStringParameters "last_file" "False" = "True") :
    totalGlueStartRuns (handleAll s3 evs) = 0 ∧
    ∀ r ∈ handleAll s3 evs, r.fst.statusCode ≠ 200 := by
  constructor
  · exact totalGlueStartRuns_handleAll s3 evs
  · intro r hr
    unfold handleAll at hr
    rw [List.mem_map] at hr
    obtain ⟨ev, hev, hrev⟩ := hr
    subst hrev
    have hflag := h ev hev
    rw [lambda_handler_char, hflag]
    split_ifs with h1 h2 h3
    · simp
    · simp
    · simp
    · exact absurd rfl h3

/-- C2 amended, witness: the two-request batch of `evLast` issues zero
workflow starts and neither answer is 200. -/
theorem C2_amended_witness :
    totalGlueStartRuns (handleAll grantingS3 [evLast, evLast]) = 0 ∧
    ∀ r ∈ handleAll grantingS3 [evLast, evLast], r.fst.statusCode ≠ 200 :=
  C2_amended_no_dispatch grantingS3 [evLast, evLast]
    (by intro ev hev; simp only [List.mem_cons, List.not_mem_nil, or_false] at hev
        rcases hev with h | h <;> (subst h; rfl))

/-- C4: the code at the failing input. For the scenario request with
`last_file = "True"` and a granting issuer, the handler does not keep the
200 credential response: the dispatcher's `NameError` (undefined name
`botocto`, a slip for the imported `boto3`) escapes its `except ClientError`
clause — written precisely so that dispatch failures would be swallowed —
and the outer `except Exception` turns the whole response into a 500 with no
credential payload. -/
theorem C4_dispatch_failure_changes_response :
    lambda_handler grantingS3 evLast =
      ({ statusCode := 500, headers := [],
         body := Body.message "Internal Server Error - Check CloudWatch" },
       { presignCalls := [(S3_BUCKET_PLACEHOLDER, "T1/raw_data/ERP/sales.csv", 300)],
         glueAttempts := [(GLUE_WORKFLOW_PLACEHOLDER, "T1")], glueStartRuns := 0 }) ∧
    (lambda_handler grantingS3 evLast).fst.statusCode ≠ 200 ∧
    (lambda_handler grantingS3 evLast).fst.body.hasCredentialFields = false := by
  exact ⟨rfl, by decide, rfl⟩

/-- C8 counterexample: the gateway performs no path-segment validation. A
request whose `file_name` is `../secret.csv` is authorized verbatim: the
issuer is called with a key containing a `..` segment and the client still
receives a 200 response carrying the credential. -/
theorem C8_counterexample :
    (lambda_handler grantingS3 evDotDot).fst.statusCode = 200 ∧
    (lambda_handler grantingS3 evDotDot).fst.body.hasCredentialFields = true ∧
    (lambda_handler grantingS3 evDotDot).snd.presignCalls
      = [(S3_BUCKET_PLACEHOLDER,
          "CLIENT_ID_MISSING/raw_data/DEFAULT_SOURCE/" ++ ".." ++ "/secret.csv", 300)] := by
  exact ⟨rfl, rfl, rfl⟩

/-- C8 amended: every authorizer call the gateway makes carries a non-empty
object key and the fixed TTL of 300 seconds, strictly positive and below the
3600-second bound; but the key is not screened for `..` segments, and a
request with `..` in its file name still yields a credential
(`C8_counterexample`). -/
theorem C8_amended_ttl_and_nonempty_key (s3 : String → String → Nat → S3Reply)
    (ev : LambdaEvent) (c : String × String × Nat)
    (hc : c ∈ (lambda_handler s3 ev).snd.presignCalls) :
    c.snd.snd = 300 ∧ 0 < c.snd.snd ∧ c.snd.snd ≤ 3600 ∧ c.snd.fst ≠ "" := by
  rw [lambda_handler_char] at hc
  have hmem : c = (S3_BUCKET_PLACEHOLDER, requestKey ev, 300) := by
    split_ifs at hc with h1 h2 h3
    · exact absurd hc (by simp [Effects.empty])
    · simpa using hc
    · simpa using hc
    · simpa using hc
  subst hmem
  refine ⟨rfl, ?_, ?_, requestKey_ne_empty ev⟩
  · show (0 : Nat) < 300
    decide
  · show (300 : Nat) ≤ 3600
    decide

/-- C8 amended, witness: the one authorizer call of the `..`-carrying request
satisfies the TTL bounds and has a non-empty key. -/
theorem C8_amended_witness :
    ("CLIENT_ID_MISSING/raw_data/DEFAULT_SOURCE/../secret.csv" : String) ≠ "" ∧
    (0 < 300 ∧ 300 ≤ 3600) :=
  ⟨(C8_amended_ttl_and_nonempty_key grantingS3 evDotDot
      (S3_BUCKET_PLACEHOLDER, "CLIENT_ID_MISSING/raw_data/DEFAULT_SOURCE/../secret.csv", 300)
      (by decide)).2.2.2,
   by decide⟩

/-- C9: the handler is total over events and issuer behaviours — the
embedding returns a response for every input, mirroring the outer
`except Exception` — and the status code is always 200, 400 or 500; it is
400 exactly when `file_name` is absent or empty, and 200 only when the
credential was issued and is carried in the body. -/
theorem C9_status_codes (s3 : String → String → Nat → S3Reply) (ev : LambdaEvent) :
    ((lambda_handler s3 ev).fst.statusCode = 200 ∨
      (lambda_handler s3 ev).fst.statusCode = 400 ∨
      (lambda_handler s3 ev).fst.statusCode = 500) ∧
    ((lambda_handler s3 ev).fst.statusCode = 400 ↔
      pyTruthy (dictGet ev.queryStringParameters "file_name") = false) ∧
    ((lambda_handler s3 ev).fst.statusCode = 200 →
      (lambda_handler s3 ev).fst.body.hasCredentialFields = true) := by
  rw [lambda_handler_char]
  split_ifs with h1 h2 h3
  · exact ⟨Or.inr (Or.inl rfl), by simp [h1], by intro h; simp at h⟩
  · exact ⟨Or.inr (Or.inr rfl), by simp [h1], by intro h; simp at h⟩
  · exact ⟨Or.inr (Or.inr rfl), by simp [h1], by intro h; simp at h⟩
  · refine ⟨Or.inl rfl, by simp [h1], fun _ => ?_⟩
    exact hasCredentialFields_of_no_error _ (by simpa using h2)

/-- C9 witness: the empty request is answered 400. -/
theorem C9_status_codes_witness :
    (lambda_handler grantingS3 ⟨[]⟩).fst.statusCode = 400 :=
  (C9_status_codes grantingS3 ⟨[]⟩).2.1.mpr rfl

/-- C10: among requests that pass validation and authorization, the
workflow-trigger branch is entered exactly when the `last_file` parameter is
the literal string `"True"`; any other spelling (such as `"true"`) triggers
no dispatch attempt and leaves the response and effects identical to those
of the same request without the flag. -/
theorem C10_flag_exact_match (s3 : String → String → Nat → S3Reply)
    (ev ev' : LambdaEvent)
    (hfile : pyTruthy (dictGet ev.queryStringParameters "file_name") = true)
    (hok : containsKeyError (create_presigned_post s3 S3_BUCKET_PLACEHOLDER (requestKey ev))
      = false)
    (hs : dictGet ev'.queryStringParameters "s3" = dictGet ev.queryStringParameters "s3")
    (hf : dictGet ev'.queryStringParameters "file_name"
      = dictGet ev.queryStringParameters "file_name")
    (hg : dictGet ev'.queryStringParameters "gestionale"
      = dictGet ev.queryStringParameters "gestionale")
    (hflag' : dictGetD ev'.queryStringParameters "last_file" "False" ≠ "True") :
    ((lambda_handler s3 ev).snd.glueAttempts ≠ [] ↔
      dictGetD ev.queryStringParameters "last_file" "False" = "True") ∧
    (dictGetD ev.queryStringParameters "last_file" "False" ≠ "True" →
      lambda_handler s3 ev = lambda_handler s3 ev') := by
  constructor
  · rw [lambda_handler_char]
    rw [if_neg (by simp [hfile]), if_neg (by simp [hok])]
    by_cases hfl : dictGetD ev.queryStringParameters "last_file" "False" = "True"
    · rw [if_pos hfl]
      simp [hfl]
    · rw [if_neg hfl]
      simp [hfl]
  · intro hne
    have hs' : dictGetD ev'.queryStringParameters "s3" "CLIENT_ID_MISSING"
        = dictGetD ev.queryStringParameters "s3" "CLIENT_ID_MISSING" := by
      unfold dictGetD; rw [hs]
    have hg' : dictGetD ev'.queryStringParameters "gestionale" "DEFAULT_SOURCE"
        = dictGetD ev.queryStringParameters "gestionale" "DEFAULT_SOURCE" := by
      unfold dictGetD; rw [hg]
    simp only [lambda_handler]
    rw [hs', hf, hg']
    exact handlerBody_flag_irrel s3 _ _ _ _ _ hne hflag'

/-- C10 witness: `last_file=true` (lowercase) attempts no dispatch and is
handled exactly like the flagless request. -/
theorem C10_flag_exact_match_witness :
    lambda_handler grantingS3 evLower = lambda_handler grantingS3 evNoFlag ∧
    (lambda_handler grantingS3 evLower).snd.glueAttempts = [] := by
  have h := C10_flag_exact_match grantingS3 evLower evNoFlag (by decide) rfl rfl rfl rfl
    (by decide)
  refine ⟨h.2 (by decide), ?_⟩
  by_contra hne
  exact absurd (h.1.mp hne) (by decide)
